import Mathlib

/-!
# Verification of the provably-fair round verifier (`anu.py`)

Shallow embedding of the single Python source file of the repository.
The file has three parts executed in order when run as a script:

1. the round-verifier core (`sha256_hex`, `hmac_sha256_hex`,
   `roll_from_seeds`, `compute_commitment`, `verify_round`) plus a
   `main()` CLI shell, with `main()` invoked under
   `if __name__ == "__main__"`;
2. a module-level PDF-report script writing `Tulsi_Report.pdf`;
3. a second module-level PDF-report script writing
   `Tulsi_Report_Anushka.pdf`.

Machine words are `Nat` with explicit reduction `% 2^32`; byte strings are
`List Nat` with every byte `< 256`; Python `float` results of the form
`k / 100.0` are modelled as the rational `k / 100`; observable effects
(prints, file writes) are an explicit event trace.
-/

/-! ## 32-bit words over `Nat` -/

/-- `2^32`, the modulus of 32-bit word arithmetic. -/
def MOD32 : Nat := 4294967296

/-- Rotate a 32-bit word right by `n` bits. -/
def rotr32 (n x : Nat) : Nat := ((x >>> n) ||| (x <<< (32 - n))) % MOD32

/-! ## SHA-256 (FIPS 180-4), the algorithm behind `hashlib.sha256` -/

/-- SHA-256 choose function: each bit of `x` selects the corresponding
bit of `y` or of `z`; the 32-bit complement of `x` is its xor with the
all-ones word. -/
def sha256Ch (x y z : Nat) : Nat := (x &&& y) ^^^ ((x ^^^ 4294967295) &&& z)

/-- SHA-256 `Maj(x,y,z)`, the three-way majority (xor reassociated). -/
def sha256Maj (x y z : Nat) : Nat := (x &&& y) ^^^ ((x &&& z) ^^^ (y &&& z))

/-- SHA-256 `Σ₀`. -/
def bigSigma0 (x : Nat) : Nat := rotr32 2 x ^^^ rotr32 13 x ^^^ rotr32 22 x

/-- SHA-256 `Σ₁`. -/
def bigSigma1 (x : Nat) : Nat := rotr32 6 x ^^^ rotr32 11 x ^^^ rotr32 25 x

/-- SHA-256 `σ₀`. -/
def smallSigma0 (x : Nat) : Nat := rotr32 7 x ^^^ rotr32 18 x ^^^ (x >>> 3)

/-- SHA-256 `σ₁`. -/
def smallSigma1 (x : Nat) : Nat := rotr32 17 x ^^^ rotr32 19 x ^^^ (x >>> 10)

/-- The 64 SHA-256 round constants (fractional parts of cube roots of the
first 64 primes), in decimal. -/
def sha256K : List Nat :=
  [1116352408, 1899447441, 3049323471, 3921009573, 961987163, 1508970993,
   2453635748, 2870763221, 3624381080, 310598401, 607225278, 1426881987,
   1925078388, 2162078206, 2614888103, 3248222580, 3835390401, 4022224774,
   264347078, 604807628, 770255983, 1249150122, 1555081692, 1996064986,
   2554220882, 2821834349, 2952996808, 3210313671, 3336571891, 3584528711,
   113926993, 338241895, 666307205, 773529912, 1294757372, 1396182291,
   1695183700, 1986661051, 2177026350, 2456956037, 2730485921, 2820302411,
   3259730800, 3345764771, 3516065817, 3600352804, 4094571909, 275423344,
   430227734, 506948616, 659060556, 883997877, 958139571, 1322822218,
   1537002063, 1747873779, 1955562222, 2024104815, 2227730452, 2361852424,
   2428436474, 2756734187, 3204031479, 3329325298]

/-- The eight 32-bit working registers of a SHA-256 computation. -/
structure Hash8 where
  a : Nat
  b : Nat
  c : Nat
  d : Nat
  e : Nat
  f : Nat
  g : Nat
  h : Nat
deriving DecidableEq

/-- The SHA-256 initial hash value `H⁽⁰⁾`. -/
def sha256H0 : Hash8 :=
  ⟨1779033703, 3144134277, 1013904242, 2773480762,
   1359893119, 2600822924, 528734635, 1541459225⟩

/-- One SHA-256 compression round: state update for round constant `k`
and schedule word `w`. -/
def sha256Round (st : Hash8) (kw : Nat × Nat) : Hash8 :=
  let t1 := (st.h + bigSigma1 st.e + sha256Ch st.e st.f st.g + kw.1 + kw.2) % MOD32
  let t2 := (bigSigma0 st.a + sha256Maj st.a st.b st.c) % MOD32
  ⟨(t1 + t2) % MOD32, st.a, st.b, st.c, (st.d + t1) % MOD32, st.e, st.f, st.g⟩

/-- Extend the message schedule by `k` more words.  The accumulator holds
the schedule so far in reverse order (most recent word first), so
`W_{t-2}`, `W_{t-7}`, `W_{t-15}`, `W_{t-16}` are at reversed indices
1, 6, 14, 15. -/
def extendWords : Nat → List Nat → List Nat
  | 0, rws => rws
  | Nat.succ k, rws =>
      let w := (smallSigma1 (rws.getD 1 0) + rws.getD 6 0 +
                smallSigma0 (rws.getD 14 0) + rws.getD 15 0) % MOD32
      extendWords k (w :: rws)

/-- The 64-word message schedule of a 16-word block. -/
def messageSchedule (ws : List Nat) : List Nat :=
  (extendWords 48 ws.reverse).reverse

/-- Compress one 16-word (512-bit) block into the chaining state. -/
def compressBlock (st : Hash8) (ws : List Nat) : Hash8 :=
  let r := (sha256K.zip (messageSchedule ws)).foldl sha256Round st
  ⟨(st.a + r.a) % MOD32, (st.b + r.b) % MOD32, (st.c + r.c) % MOD32,
   (st.d + r.d) % MOD32, (st.e + r.e) % MOD32, (st.f + r.f) % MOD32,
   (st.g + r.g) % MOD32, (st.h + r.h) % MOD32⟩

/-- Fold the compression function over a word list that is a whole number
of 16-word blocks (the padded message always is; a ragged tail would be
dropped). -/
def foldBlocks : Hash8 → List Nat → Hash8
  | st, w0 :: w1 :: w2 :: w3 :: w4 :: w5 :: w6 :: w7 ::
        w8 :: w9 :: w10 :: w11 :: w12 :: w13 :: w14 :: w15 :: rest =>
      foldBlocks
        (compressBlock st [w0, w1, w2, w3, w4, w5, w6, w7,
                           w8, w9, w10, w11, w12, w13, w14, w15]) rest
  | st, _ => st

/-- The 8-byte big-endian encoding of a (64-bit) length value. -/
def lenBytesBE (n : Nat) : List Nat :=
  [(n >>> 56) % 256, (n >>> 48) % 256, (n >>> 40) % 256, (n >>> 32) % 256,
   (n >>> 24) % 256, (n >>> 16) % 256, (n >>> 8) % 256, n % 256]

/-- SHA-256 padding: a `0x80` byte, zeros to 56 mod 64, then the bit
length in 8 bytes big-endian. -/
def padMessage (msg : List Nat) : List Nat :=
  msg ++ 128 :: List.replicate ((64 - ((msg.length + 9) % 64)) % 64) 0 ++
    lenBytesBE (8 * msg.length)

/-- Group bytes into big-endian 32-bit words (the padded message length is
a multiple of 4, so the exhaustive catch-all is never a ragged tail). -/
def bytesToWords : List Nat → List Nat
  | a :: b :: c :: d :: rest =>
      (((a * 256 + b) * 256 + c) * 256 + d) :: bytesToWords rest
  | _ => []

/-- The four bytes of a 32-bit word, big-endian. -/
def wordBytes (w : Nat) : List Nat :=
  [(w >>> 24) % 256, (w >>> 16) % 256, (w >>> 8) % 256, w % 256]

/-- SHA-256 of a byte string: pad, compress each block, serialize the
final state big-endian.  Always 32 bytes. -/
def sha256 (msg : List Nat) : List Nat :=
  let r := foldBlocks sha256H0 (bytesToWords (padMessage msg))
  wordBytes r.a ++ wordBytes r.b ++ wordBytes r.c ++ wordBytes r.d ++
  wordBytes r.e ++ wordBytes r.f ++ wordBytes r.g ++ wordBytes r.h

/-! ## UTF-8 and hexadecimal codecs -/

/-- UTF-8 encoding of one Unicode scalar value (`str.encode('utf-8')`
per character). -/
def utf8Char (c : Char) : List Nat :=
  let n := c.toNat
  if n < 128 then [n]
  else if n < 2048 then [192 + n / 64, 128 + n % 64]
  else if n < 65536 then [224 + n / 4096, 128 + (n / 64) % 64, 128 + n % 64]
  else [240 + n / 262144, 128 + (n / 4096) % 64, 128 + (n / 64) % 64, 128 + n % 64]

/-- UTF-8 encoding of a string, as Python's `s.encode('utf-8')`. -/
def utf8 (s : String) : List Nat := (s.data.map utf8Char).flatten

/-- The sixteen lowercase hexadecimal digits `0..9a..f` (code points
48-57 then 87+10 .. 87+15). -/
def hexDigits : List Char :=
  (List.range 16).map (fun n => if n < 10 then Char.ofNat (48 + n) else Char.ofNat (87 + n))

/-- The lowercase hex digit of a value `< 16`. -/
def hexChar (n : Nat) : Char := hexDigits.getD n '0'

/-- The two lowercase hex digits of a byte. -/
def byteHex (b : Nat) : List Char := [hexChar (b / 16), hexChar (b % 16)]

/-- Lowercase hex encoding of a byte string, as Python's `.hexdigest()` /
`binascii.hexlify`. -/
def bytesToHex (bs : List Nat) : String := ⟨(bs.map byteHex).flatten⟩

/-- The value of one hex digit (0 for a non-digit; inputs are always
digits produced by `hexChar`). -/
def hexVal (c : Char) : Nat :=
  if c = '0' then 0 else if c = '1' then 1 else if c = '2' then 2
  else if c = '3' then 3 else if c = '4' then 4 else if c = '5' then 5
  else if c = '6' then 6 else if c = '7' then 7 else if c = '8' then 8
  else if c = '9' then 9 else if c = 'a' then 10 else if c = 'b' then 11
  else if c = 'c' then 12 else if c = 'd' then 13 else if c = 'e' then 14
  else if c = 'f' then 15 else 0

/-- `binascii.unhexlify` on an even-length hex character list (the only
shape the program ever passes it: its own hexdigest output). -/
def unhexlify : List Char → List Nat
  | a :: b :: rest => (16 * hexVal a + hexVal b) :: unhexlify rest
  | _ => []

/-! ## HMAC-SHA256 (`hmac.new(key, msg, hashlib.sha256)`) -/

/-- HMAC-SHA256 digest over byte strings: block size 64; a key longer
than the block is first hashed; inner/outer pads `0x36`/`0x5c`. -/
def hmacSha256 (key msg : List Nat) : List Nat :=
  let k0 := if 64 < key.length then sha256 key else key
  let kp := k0 ++ List.replicate (64 - k0.length) 0
  sha256 ((kp.map (fun b => b ^^^ 92)) ++ sha256 ((kp.map (fun b => b ^^^ 54)) ++ msg))

/-! ## The source functions of `anu.py` -/

/-- `sha256_hex(s)`: lowercase hexdigest of SHA-256 of the UTF-8 bytes
of `s`. -/
def sha256_hex (s : String) : String := bytesToHex (sha256 (utf8 s))

/-- `hmac_sha256_hex(key, message)`: lowercase hexdigest of HMAC-SHA256
with UTF-8 `key` and `message`. -/
def hmac_sha256_hex (key message : String) : String :=
  bytesToHex (hmacSha256 (utf8 key) (utf8 message))

/-- Python `str(n)` for an `int`: decimal digits, minus sign for
negatives. -/
def intDecimal (n : Int) : String :=
  if n < 0 then "-" ++ Nat.repr (-n).toNat else Nat.repr n.toNat

/-- Lines 49-53 of `roll_from_seeds`, from the already-built message:
hexdigest, `unhexlify`, first 8 bytes, big-endian integer, `% 10000`.
Returns the integer `roll100` of line 53. -/
def rollOfMessage (server message : String) : Nat :=
  let hbytes := unhexlify (hmac_sha256_hex server message).data
  ((hbytes.take 8).foldl (fun acc b => acc * 256 + b) 0) % 10000

/-- The integer `roll100 = value % 10000` computed by
`roll_from_seeds(server, client, nonce)`, message
`f"{client_seed}:{nonce}"`. -/
def roll100_from_seeds (server client : String) (nonce : Int) : Nat :=
  rollOfMessage server (client ++ ":" ++ intDecimal nonce)

/-- `roll_from_seeds`: the returned value `roll100 / 100.0`, modelled as
the exact rational (the float division is exact enough that all claims
below concern the represented two-decimal value). -/
def roll_from_seeds (server client : String) (nonce : Int) : ℚ :=
  (roll100_from_seeds server client nonce : ℚ) / 100

/-- `compute_commitment(server_seed) = sha256_hex(server_seed)`. -/
def compute_commitment (server_seed : String) : String := sha256_hex server_seed

/-! ## Observable effects -/

/-- One observable effect of running the script: a line printed to
standard output, or a file written to the working directory. -/
inductive Event where
  | stdout (line : String)
  | fileWrite (path : String)
deriving DecidableEq

/-- The single-quote character, used inside printed messages. -/
def sglQuote : String := ⟨[Char.ofNat 39]⟩

/-- Rendering of `f"{roll:.2f}"` for `roll = roll100 / 100.0` with
`roll100 ≤ 9999`: the double nearest to `roll100/100` is within `2⁻⁴⁶`
of it, so rounding to two decimals recovers exactly `roll100`. -/
def formatRoll100 (k : Nat) : String :=
  Nat.repr (k / 100) ++ "." ++
    (if k % 100 < 10 then "0" ++ Nat.repr (k % 100) else Nat.repr (k % 100))

/-- `f"{r:.2f}"` for the rationals this program prints (`k/100`,
`k ≤ 9999`): `r * 100` is the integer `k`. -/
def formatRoll (r : ℚ) : String := formatRoll100 (r * 100).num.toNat

/-- The result of one `verify_round` call: the returned boolean, the
local `roll` value when the matching branch computed one, and the print
trace. -/
structure VerifyRun where
  ret : Bool
  roll : Option ℚ
  events : List Event
deriving DecidableEq

/-- `verify_round`, parameterized by the roll function it calls on the
matching branch (instantiated with `roll_from_seeds` below; the
parameter makes "the mismatch branch never invokes the roll
computation" a provable statement). -/
def verifyRoundGen (rollFn : String → String → Int → ℚ)
    (published server client : String) (nonce : Int) : VerifyRun :=
  let computed := compute_commitment server
  let pre := [Event.stdout ("Published commitment: " ++ published),
              Event.stdout ("Computed commitment:  " ++ computed)]
  if computed ≠ published then
    { ret := false, roll := none,
      events := pre ++ [Event.stdout "\n>>> VERIFICATION FAILED: The provided server_seed does NOT match the published commitment."] }
  else
    let roll := rollFn server client nonce
    { ret := true, roll := some roll,
      events := pre ++
        [Event.stdout "\nCommitment verified: server_seed matches the published commitment.",
         Event.stdout ("Deterministic roll for client_seed=" ++ sglQuote ++ client ++ sglQuote ++
           ", nonce=" ++ intDecimal nonce ++ " -> " ++ formatRoll roll)] }

/-- `verify_round(published_commitment, server_seed, client_seed, nonce)`. -/
def verify_round (published server client : String) (nonce : Int) : VerifyRun :=
  verifyRoundGen roll_from_seeds published server client nonce

/-! ## The CLI shell and the module-level PDF scripts -/

/-- Module constant `CLIENT_SEED`. -/
def CLIENT_SEED : String := "pxfv6pdY0X"

/-- Module constant `PUBLISHED_COMMITMENT`. -/
def PUBLISHED_COMMITMENT : String :=
  "6691b3a8b89b96292a9f930343af4690dd4892db29d5af87ac6f6f4bce346fcf"

/-- The three lines printed when no (or an empty) server seed is given,
before `sys.exit(0)`. -/
def noServerLines : List Event :=
  [Event.stdout "No server seed provided. To verify a round, run with --server \"REVEALED_SERVER_SEED\"",
   Event.stdout "Example:",
   Event.stdout "  python verify_round_with_your_seeds.py --server \"your-server-seed-here\" --nonce 1"]

/-- The outcome of `main()` on parsed arguments: its print trace and
whether it left via `sys.exit(0)` (which also skips everything after the
`main()` call at module level).  `--server` is `none` when omitted;
Python's `if not args.server` also treats the empty string as absent. -/
structure MainRun where
  events : List Event
  exited : Bool
deriving DecidableEq

/-- `main()` on parsed arguments (argparse defaults: nonce 1, client
`CLIENT_SEED`, published `PUBLISHED_COMMITMENT`; argparse's `type=int`
accepts any integer, negatives included). -/
def mainRun (server : Option String) (nonce : Int) (client published : String) : MainRun :=
  let header := [Event.stdout "=== Provably-Fair Verifier ===",
                 Event.stdout ("Using client seed: " ++ client),
                 Event.stdout ("Using published commitment: " ++ published),
                 Event.stdout ""]
  match server with
  | none => { events := header ++ noServerLines, exited := true }
  | some s =>
    if s = "" then { events := header ++ noServerLines, exited := true }
    else
      let v := verify_round published s client nonce
      { events := header ++ v.events ++
          [Event.stdout (if v.ret then "\nVerification completed successfully."
            else "\nVerification FAILED. Do not trust the result if server seed and published commitment mismatch.")],
        exited := false }

/-- Effects of the module-level code after `main()` (lines 101-256): the
two PDF scripts, each writing its report file and printing a success
line.  Runs unconditionally whenever `main()` returns (i.e. a server
seed was supplied). -/
def pdfTailEvents : List Event :=
  [Event.fileWrite "Tulsi_Report.pdf",
   Event.stdout "✅ Tulsi_Report.pdf created successfully!",
   Event.fileWrite "Tulsi_Report_Anushka.pdf",
   Event.stdout "✅ Tulsi_Report_Anushka.pdf created successfully!"]

/-- The full effect trace of one invocation `python anu.py`:
`main()` followed, unless `sys.exit(0)` fired, by the two PDF scripts. -/
def programEvents (server : Option String) (nonce : Int) (client published : String) : List Event :=
  let m := mainRun server nonce client published
  if m.exited then m.events else m.events ++ pdfTailEvents

/-! ## Spec-side definition for the refinement claim C2 -/

/-- Modelled from the spec's words (§4.1 `compute_roll`, steps 1-4):
message `clientSeed ++ ":" ++ decimal nonce`; HMAC-SHA256 digest with
`serverSeed` as key; first 8 bytes of the 32-byte digest as a big-endian
unsigned 64-bit integer `V`; outcome `(V mod 10000) / 100`.  To be
compared with `roll_from_seeds`, which round-trips through the
hexdigest. -/
def specRoll (server client : String) (nonce : Int) : ℚ :=
  let message := client ++ ":" ++ intDecimal nonce
  let digest := hmacSha256 (utf8 server) (utf8 message)
  let V := (digest.take 8).foldl (fun acc b => acc * 256 + b) 0
  ((V % 10000 : Nat) : ℚ) / 100

/-- Is an event a line on standard output? -/
def Event.isStdout : Event → Bool
  | .stdout _ => true
  | .fileWrite _ => false

set_option maxRecDepth 100000

/-! ## Helper lemmas -/

theorem wordBytes_lt (w : Nat) : ∀ b ∈ wordBytes w, b < 256 := by
  intro b hb
  simp only [wordBytes, List.mem_cons, List.not_mem_nil, or_false] at hb
  rcases hb with h | h | h | h <;> omega

theorem sha256_bytes_lt (m : List Nat) : ∀ b ∈ sha256 m, b < 256 := by
  intro b hb
  simp only [sha256, List.mem_append] at hb
  rcases hb with ((((((h | h) | h) | h) | h) | h) | h) | h <;> exact wordBytes_lt _ _ h

theorem hmacSha256_bytes_lt (k m : List Nat) : ∀ b ∈ hmacSha256 k m, b < 256 := by
  intro b hb
  simp only [hmacSha256] at hb
  exact sha256_bytes_lt _ _ hb

theorem sha256_length (m : List Nat) : (sha256 m).length = 32 := by
  simp [sha256, wordBytes]

theorem hexVal_hexChar {n : Nat} (h : n < 16) : hexVal (hexChar n) = n := by
  interval_cases n <;> rfl

theorem hexChar_mem (n : Nat) : hexChar n ∈ hexDigits := by
  rcases Nat.lt_or_ge n 16 with h | h
  · interval_cases n <;> decide
  · unfold hexChar
    rw [List.getD_eq_default]
    · decide
    · simpa [hexDigits] using h

theorem unhexlify_bytesToHex (l : List Nat) (h : ∀ b ∈ l, b < 256) :
    unhexlify (bytesToHex l).data = l := by
  induction l with
  | nil => rfl
  | cons x xs hx =>
      have hb : x < 256 := h x (List.mem_cons_self x xs)
      have hdiv : x / 16 < 16 := by omega
      have hmod : x % 16 < 16 := Nat.mod_lt _ (by norm_num)
      have tail : unhexlify (bytesToHex xs).data = xs :=
        hx (fun y hy => h y (List.mem_cons_of_mem _ hy))
      simp only [bytesToHex, List.map_cons, List.flatten_cons, byteHex] at tail ⊢
      simp only [List.cons_append, List.nil_append, unhexlify,
        hexVal_hexChar hdiv, hexVal_hexChar hmod, tail]
      congr 1
      omega

theorem bytesToHex_length (l : List Nat) : (bytesToHex l).length = 2 * l.length := by
  induction l with
  | nil => rfl
  | cons x xs hx =>
      simp only [bytesToHex, String.length, List.map_cons, List.flatten_cons, byteHex,
        List.length_append, List.length_cons, List.length_nil] at hx ⊢
      omega

theorem bytesToHex_all_hex (l : List Nat) :
    (bytesToHex l).data.all (fun ch => decide (ch ∈ hexDigits)) = true := by
  induction l with
  | nil => rfl
  | cons x xs hx =>
      simp only [bytesToHex, List.map_cons, List.flatten_cons, byteHex,
        List.cons_append, List.nil_append, List.all_cons, Bool.and_eq_true,
        decide_eq_true_eq] at hx ⊢
      exact ⟨hexChar_mem _, hexChar_mem _, hx⟩

theorem rollOfMessage_lt (server message : String) : rollOfMessage server message < 10000 := by
  simp only [rollOfMessage]
  exact Nat.mod_lt _ (by norm_num)

theorem roll100_lt (s c : String) (n : Int) : roll100_from_seeds s c n < 10000 :=
  rollOfMessage_lt _ _

theorem roll_from_seeds_nonneg (s c : String) (n : Int) : 0 ≤ roll_from_seeds s c n := by
  unfold roll_from_seeds
  positivity

theorem roll_from_seeds_le (s c : String) (n : Int) :
    roll_from_seeds s c n ≤ 9999 / 100 := by
  unfold roll_from_seeds
  have h : roll100_from_seeds s c n ≤ 9999 := Nat.lt_succ_iff.mp (roll100_lt s c n)
  gcongr
  exact_mod_cast h

theorem verifyRoundGen_ret_of_eq {p s c : String} {n : Int}
    {f : String → String → Int → ℚ} (h : compute_commitment s = p) :
    (verifyRoundGen f p s c n).ret = true := by
  simp only [verifyRoundGen, if_neg (not_not_intro h)]

theorem verifyRoundGen_roll_of_eq {p s c : String} {n : Int}
    {f : String → String → Int → ℚ} (h : compute_commitment s = p) :
    (verifyRoundGen f p s c n).roll = some (f s c n) := by
  simp only [verifyRoundGen, if_neg (not_not_intro h)]

theorem verifyRoundGen_ret_of_ne {p s c : String} {n : Int}
    {f : String → String → Int → ℚ} (h : compute_commitment s ≠ p) :
    (verifyRoundGen f p s c n).ret = false := by
  simp only [verifyRoundGen, if_pos h]

theorem verifyRoundGen_roll_of_ne {p s c : String} {n : Int}
    {f : String → String → Int → ℚ} (h : compute_commitment s ≠ p) :
    (verifyRoundGen f p s c n).roll = none := by
  simp only [verifyRoundGen, if_pos h]

theorem verify_round_ret_of_eq {p s c : String} {n : Int} (h : compute_commitment s = p) :
    (verify_round p s c n).ret = true := verifyRoundGen_ret_of_eq h

theorem verify_round_roll_of_eq {p s c : String} {n : Int} (h : compute_commitment s = p) :
    (verify_round p s c n).roll = some (roll_from_seeds s c n) := verifyRoundGen_roll_of_eq h

theorem verify_round_ret_of_ne {p s c : String} {n : Int} (h : compute_commitment s ≠ p) :
    (verify_round p s c n).ret = false := verifyRoundGen_ret_of_ne h

theorem verify_round_roll_of_ne {p s c : String} {n : Int} (h : compute_commitment s ≠ p) :
    (verify_round p s c n).roll = none := verifyRoundGen_roll_of_ne h

/-- Test vector: SHA-256 of `"abc"` (FIPS 180-4 example), checking the
embedding against the standard. -/
theorem sha256_test_vector :
    sha256_hex "abc" = "ba7816bf8f01cfea414140de5dae2223b00361a396177a9cb410ff61f20015ad" := by
  decide

/-- Test vector: HMAC-SHA256 (RFC 4231 test case 2), checking the keyed
hash embedding against the standard. -/
theorem hmac_test_vector :
    hmac_sha256_hex "Jefe" "what do ya want for nothing?" =
      "5bdcc146bf60754e6a042426089575c75a003f089d2739839dec58b964ec3843" := by
  decide

/-! ## The claims -/

/-- Claim C1: for every published commitment, server seed, client seed and
nonce, `verify_round` returns true and computes the roll outcome iff
`compute_commitment(serverSeed)` equals the published commitment; when they
differ it returns false and the outcome is absent. -/
theorem C1_verify_iff_commitment_match (p s c : String) (n : Int) :
    ((verify_round p s c n).ret = true ∧
       (verify_round p s c n).roll = some (roll_from_seeds s c n) ↔
     compute_commitment s = p) ∧
    (compute_commitment s ≠ p →
      (verify_round p s c n).ret = false ∧ (verify_round p s c n).roll = none) := by
  by_cases h : compute_commitment s = p
  · exact ⟨⟨fun _ => h, fun hh => ⟨verify_round_ret_of_eq hh, verify_round_roll_of_eq hh⟩⟩,
      fun hn => absurd h hn⟩
  · refine ⟨⟨fun hc => ?_, fun hh => absurd hh h⟩,
      fun _ => ⟨verify_round_ret_of_ne h, verify_round_roll_of_ne h⟩⟩
    have hf := verify_round_ret_of_ne (c := c) (n := n) h
    rw [hc.1] at hf
    exact absurd hf (by decide)

/-- Claim C1 witness: a concrete mismatching commitment yields
`ret = false` and no outcome. -/
theorem C1_witness :
    compute_commitment "abc123" ≠
      "deadbeefdeadbeefdeadbeefdeadbeefdeadbeefdeadbeefdeadbeefdeadbeef" ∧
    (verify_round "deadbeefdeadbeefdeadbeefdeadbeefdeadbeefdeadbeefdeadbeefdeadbeef"
        "abc123" "pxfv6pdY0X" 1).ret = false ∧
    (verify_round "deadbeefdeadbeefdeadbeefdeadbeefdeadbeefdeadbeefdeadbeefdeadbeef"
        "abc123" "pxfv6pdY0X" 1).roll = none := by
  have h : compute_commitment "abc123" ≠
      "deadbeefdeadbeefdeadbeefdeadbeefdeadbeefdeadbeefdeadbeefdeadbeef" := by decide
  exact ⟨h, (C1_verify_iff_commitment_match
    "deadbeefdeadbeefdeadbeefdeadbeefdeadbeefdeadbeefdeadbeefdeadbeef"
    "abc123" "pxfv6pdY0X" 1).2 h⟩

/-- Claim C2: for every server seed, client seed and non-negative nonce,
`roll_from_seeds` equals the spec's algorithm: message
`clientSeed ++ ":" ++ decimal nonce`, HMAC-SHA256 with the server seed as
key, first 8 bytes of the digest as a big-endian integer `V`, outcome
`(V mod 10000) / 100` (the implementation's round-trip through the
hexdigest changes nothing). -/
theorem C2_roll_matches_spec_algorithm (s c : String) (n : Int) (h : 0 ≤ n) :
    roll_from_seeds s c n = specRoll s c n := by
  have key := unhexlify_bytesToHex (hmacSha256 (utf8 s) (utf8 (c ++ ":" ++ intDecimal n)))
    (hmacSha256_bytes_lt _ _)
  simp only [roll_from_seeds, roll100_from_seeds, rollOfMessage, hmac_sha256_hex, specRoll, key]

/-- Claim C2 witness: the spec scenario seed pair at nonce 1. -/
theorem C2_witness :
    (0 : Int) ≤ 1 ∧
    roll_from_seeds "abc123" "pxfv6pdY0X" 1 = specRoll "abc123" "pxfv6pdY0X" 1 :=
  ⟨by decide, C2_roll_matches_spec_algorithm "abc123" "pxfv6pdY0X" 1 (by decide)⟩

/-- Claim C3: for every string `S`, `compute_commitment S` is the lowercase
hex encoding of the SHA-256 digest of the UTF-8 bytes of `S`, is 64
characters long, each a lowercase hex digit; being a Lean function of
`S` it is total over all strings with no failure mode. -/
theorem C3_commitment_lowercase_hex_total (S : String) :
    compute_commitment S = bytesToHex (sha256 (utf8 S)) ∧
    (compute_commitment S).length = 64 ∧
    (compute_commitment S).data.all (fun ch => decide (ch ∈ hexDigits)) = true := by
  refine ⟨rfl, ?_, bytesToHex_all_hex _⟩
  show (bytesToHex (sha256 (utf8 S))).length = 64
  rw [bytesToHex_length, sha256_length]

/-- Claim C4: on commitment mismatch `verify_round` signals the result as
the boolean `false` with no outcome (total function: no exception), and the
mismatch branch does not invoke the roll computation — the result is the
same whatever roll function `verifyRoundGen` is given. -/
theorem C4_mismatch_boolean_roll_not_invoked (p s c : String) (n : Int)
    (h : compute_commitment s ≠ p) :
    (verify_round p s c n).ret = false ∧ (verify_round p s c n).roll = none ∧
    ∀ f g : String → String → Int → ℚ,
      verifyRoundGen f p s c n = verifyRoundGen g p s c n := by
  refine ⟨verify_round_ret_of_ne h, verify_round_roll_of_ne h, fun f g => ?_⟩
  simp only [verifyRoundGen, if_pos h]

/-- Claim C4 witness: a concrete mismatch, boolean false. -/
theorem C4_witness :
    compute_commitment "abc123" ≠
      "0000000000000000000000000000000000000000000000000000000000000000" ∧
    (verify_round "0000000000000000000000000000000000000000000000000000000000000000"
        "abc123" "pxfv6pdY0X" 1).ret = false := by
  have h : compute_commitment "abc123" ≠
      "0000000000000000000000000000000000000000000000000000000000000000" := by decide
  exact ⟨h, (C4_mismatch_boolean_roll_not_invoked
    "0000000000000000000000000000000000000000000000000000000000000000"
    "abc123" "pxfv6pdY0X" 1 h).1⟩

/-- Claim C5: for every server seed, client seed and non-negative nonce the
roll lies in `[0, 99.99]` and 100 times it is an integer at most 9999
(exactly two decimal digits). -/
theorem C5_roll_in_range_two_decimals (s c : String) (n : Int) (h : 0 ≤ n) :
    0 ≤ roll_from_seeds s c n ∧ roll_from_seeds s c n ≤ 9999 / 100 ∧
    ∃ k : ℕ, k ≤ 9999 ∧ roll_from_seeds s c n * 100 = (k : ℚ) := by
  refine ⟨roll_from_seeds_nonneg s c n, roll_from_seeds_le s c n,
    roll100_from_seeds s c n, Nat.lt_succ_iff.mp (roll100_lt s c n), ?_⟩
  unfold roll_from_seeds
  field_simp

/-- Claim C5 witness: the range facts at the spec scenario. -/
theorem C5_witness :
    (0 : Int) ≤ 1 ∧
    (0 ≤ roll_from_seeds "abc123" "pxfv6pdY0X" 1 ∧
     roll_from_seeds "abc123" "pxfv6pdY0X" 1 ≤ 9999 / 100 ∧
     ∃ k : ℕ, k ≤ 9999 ∧ roll_from_seeds "abc123" "pxfv6pdY0X" 1 * 100 = (k : ℚ)) :=
  ⟨by decide, C5_roll_in_range_two_decimals "abc123" "pxfv6pdY0X" 1 (by decide)⟩

/-- Claim C6: `roll_from_seeds` and `compute_commitment` are deterministic:
two calls on identical inputs produce identical outputs (both are pure
functions of their arguments in this embedding, as in the source, which
reads no ambient state). -/
theorem C6_deterministic (s1 c1 : String) (n1 : Int) (s2 c2 : String) (n2 : Int)
    (hs : s1 = s2) (hc : c1 = c2) (hn : n1 = n2) :
    roll_from_seeds s1 c1 n1 = roll_from_seeds s2 c2 n2 ∧
    compute_commitment s1 = compute_commitment s2 := by
  subst hs hc hn
  exact ⟨rfl, rfl⟩

/-- Claim C6 witness: two identical concrete calls agree. -/
theorem C6_witness :
    ("abc123" : String) = "abc123" ∧
    roll_from_seeds "abc123" "pxfv6pdY0X" 1 = roll_from_seeds "abc123" "pxfv6pdY0X" 1 ∧
    compute_commitment "abc123" = compute_commitment "abc123" := by
  have h := C6_deterministic "abc123" "pxfv6pdY0X" 1 "abc123" "pxfv6pdY0X" 1 rfl rfl rfl
  exact ⟨rfl, h.1, h.2⟩

/-- Claim C7 counterexample: the claim says a negative nonce is rejected
and no roll outcome is produced, but at nonce `-1` with a matching
commitment the code computes and returns an outcome (nothing in
`roll_from_seeds`, `verify_round` or the `type=int` argparse layer checks
the sign; Python's `str(-1)` simply embeds `-1` in the message). -/
theorem C7_counterexample :
    (-1 : Int) < 0 ∧
    (verify_round (compute_commitment "abc123") "abc123" "pxfv6pdY0X" (-1)).roll =
      some (roll_from_seeds "abc123" "pxfv6pdY0X" (-1)) :=
  ⟨by decide, verify_round_roll_of_eq rfl⟩

/-- Claim C7 as amended: a negative nonce is not rejected; for every server
seed, client seed and nonce `< 0` the verification logic still produces a
roll outcome, in the usual range. -/
theorem C7_amended_negative_nonce_not_rejected (s c : String) (n : Int) (h : n < 0) :
    (verify_round (compute_commitment s) s c n).roll = some (roll_from_seeds s c n) ∧
    0 ≤ roll_from_seeds s c n ∧ roll_from_seeds s c n ≤ 9999 / 100 :=
  ⟨verify_round_roll_of_eq rfl, roll_from_seeds_nonneg s c n, roll_from_seeds_le s c n⟩

/-- Claim C7 witness: nonce `-2` produces an in-range outcome. -/
theorem C7_witness :
    (-2 : Int) < 0 ∧
    ((verify_round (compute_commitment "srv") "srv" "cli" (-2)).roll =
       some (roll_from_seeds "srv" "cli" (-2)) ∧
     0 ≤ roll_from_seeds "srv" "cli" (-2) ∧
     roll_from_seeds "srv" "cli" (-2) ≤ 9999 / 100) :=
  ⟨by decide, C7_amended_negative_nonce_not_rejected "srv" "cli" (-2) (by decide)⟩

/-- Claim C8: nonce 0 is accepted: for every server seed and client seed
the roll at nonce 0 is computed from the message built with the decimal
string `"0"` and is a valid outcome in `[0, 99.99]`. -/
theorem C8_nonce_zero_accepted (s c : String) :
    roll_from_seeds s c 0 = (rollOfMessage s (c ++ ":" ++ "0") : ℚ) / 100 ∧
    0 ≤ roll_from_seeds s c 0 ∧ roll_from_seeds s c 0 ≤ 9999 / 100 :=
  ⟨rfl, roll_from_seeds_nonneg s c 0, roll_from_seeds_le s c 0⟩

/-- Claim C9 counterexample: the claim says every invocation produces only
standard-output text with no file output, but an invocation that supplies
a server seed runs the module-level PDF scripts after `main()` returns,
writing `Tulsi_Report.pdf` (and a second PDF). -/
theorem C9_counterexample :
    Event.fileWrite "Tulsi_Report.pdf" ∈
      programEvents (some "abc123") 1 CLIENT_SEED PUBLISHED_COMMITMENT := by
  have hs : ("abc123" : String) ≠ "" := by decide
  simp [programEvents, mainRun, if_neg hs, pdfTailEvents]

/-- Claim C9 as amended: an invocation without a server seed (the
`sys.exit(0)` path) produces only standard-output lines, but any
invocation with a non-empty server seed additionally writes the two PDF
report files. -/
theorem C9_amended_stdout_plus_pdf_files (n : Int) (c p : String) :
    (programEvents none n c p).all Event.isStdout = true ∧
    ∀ s : String, s ≠ "" →
      Event.fileWrite "Tulsi_Report.pdf" ∈ programEvents (some s) n c p ∧
      Event.fileWrite "Tulsi_Report_Anushka.pdf" ∈ programEvents (some s) n c p := by
  constructor
  · simp [programEvents, mainRun, noServerLines, Event.isStdout]
  · intro s hs
    constructor <;> simp [programEvents, mainRun, if_neg hs, pdfTailEvents]

/-- Claim C9 witness: a concrete invocation with a server seed writes both
PDF files. -/
theorem C9_witness :
    ("abc" : String) ≠ "" ∧
    (Event.fileWrite "Tulsi_Report.pdf" ∈ programEvents (some "abc") 3 "c" "p" ∧
     Event.fileWrite "Tulsi_Report_Anushka.pdf" ∈ programEvents (some "abc") 3 "c" "p") := by
  have hs : ("abc" : String) ≠ "" := by decide
  exact ⟨hs, (C9_amended_stdout_plus_pdf_files 3 "c" "p").2 "abc" hs⟩

/-- Claim C10: round trip — verifying against the commitment derived from
the same server seed always succeeds with the outcome present. -/
theorem C10_round_trip_verifies (s c : String) (n : Int) (h : 0 ≤ n) :
    (verify_round (compute_commitment s) s c n).ret = true ∧
    (verify_round (compute_commitment s) s c n).roll = some (roll_from_seeds s c n) :=
  ⟨verify_round_ret_of_eq rfl, verify_round_roll_of_eq rfl⟩

/-- Claim C10 witness: the round trip at a concrete seed pair. -/
theorem C10_witness :
    (0 : Int) ≤ 7 ∧
    ((verify_round (compute_commitment "seed") "seed" "client" 7).ret = true ∧
     (verify_round (compute_commitment "seed") "seed" "client" 7).roll =
       some (roll_from_seeds "seed" "client" 7)) :=
  ⟨by decide, C10_round_trip_verifies "seed" "client" 7 (by decide)⟩
